import Mathlib

/-!
Verification of the omnidirectional-robot Jacobian animation
(`jacobian_simulation.py`).

The script's numeric core is embedded over `ℝ`: `construct_jacobian`
builds the N×3 wheel Jacobian, `convert_to_body_frame` rotates a
speed/direction command into the body frame, and
`compute_wheel_velocities_jacobian` multiplies the two.  The animation
callback `update` derives (speed, direction, orientation) from the frame
index and is gated on a paused flag; `toggle_pause` flips that flag on a
space-key event; `get_user_inputs` collects the session configuration
with fallbacks on parse failure; and `run_animation` drives `update`
with the frame sequence `np.arange(0, 720, 1)`, `repeat=True`.
-/

namespace JacobianSim

open Real

/-- `np.radians`: degrees to radians. -/
noncomputable def radians (x : ℝ) : ℝ := x * Real.pi / 180

/-- Python's float `%` (used for `orientation_change_rate % 360`):
result has the sign of the divisor; for positive divisor it is
`x - y * ⌊x / y⌋`. -/
noncomputable def pyMod (x y : ℝ) : ℝ := x - y * ⌊x / y⌋

/-- Module global `WHEEL_RADIUS = 0.148`. -/
noncomputable def WHEEL_RADIUS : ℝ := 0.148

/-- Module global `ROBOT_RADIUS = 0.195`. -/
noncomputable def ROBOT_RADIUS : ℝ := 0.195

/-- Module global `WHEEL_ANGLES` (3-wheel configuration). -/
noncomputable def WHEEL_ANGLES : List ℝ := [radians 60, radians 180, radians 300]

/-- Module global `F_WHEEL_ANGLES` (4-wheel configuration). -/
noncomputable def F_WHEEL_ANGLES : List ℝ :=
  [radians 45, radians 135, radians 225, radians 315]

/-- Loop body of `construct_jacobian`: row `i` of the Jacobian for a
wheel mounted at angle `θ`, wheel radius `r`, platform radius `R`
(`j[i,0] = cos(angle)/WHEEL_RADIUS`, `j[i,1] = sin(angle)/WHEEL_RADIUS`,
`j[i,2] = ROBOT_RADIUS/WHEEL_RADIUS`). -/
noncomputable def jacobianRow (r R θ : ℝ) : ℝ × ℝ × ℝ :=
  (Real.cos θ / r, Real.sin θ / r, R / r)

/-- `construct_jacobian`, generalized over the module globals it reads
(the angle list and the two radii): the loop fills one row per angle, in
order. -/
noncomputable def construct_jacobian_gen (angles : List ℝ) (r R : ℝ) :
    List (ℝ × ℝ × ℝ) :=
  angles.map (jacobianRow r R)

/-- `construct_jacobian(use_four_wheels)` as in the source: selects the
angle list and reads the fixed radii globals. -/
noncomputable def construct_jacobian (use_four_wheels : Bool) : List (ℝ × ℝ × ℝ) :=
  construct_jacobian_gen
    (if use_four_wheels then F_WHEEL_ANGLES else WHEEL_ANGLES)
    WHEEL_RADIUS ROBOT_RADIUS

/-- `convert_to_body_frame(speed, angle, orientation)`: computes the
components before rotation and then applies the fixed 90° rotation
`v_bx = -v_by_0`, `v_by = v_bx_0`. -/
noncomputable def convert_to_body_frame (speed angle orientation : ℝ) : ℝ × ℝ :=
  let angle_rad := radians angle
  let orientation_rad := radians orientation
  let v_bx_0 := speed * Real.cos (angle_rad - orientation_rad)
  let v_by_0 := speed * Real.sin (angle_rad - orientation_rad)
  (-v_by_0, v_bx_0)

/-- Dot product of one Jacobian row with the body-velocity 3-vector
(one entry of `np.dot(j, v)`). -/
noncomputable def dot3 (row v : ℝ × ℝ × ℝ) : ℝ :=
  row.1 * v.1 + row.2.1 * v.2.1 + row.2.2 * v.2.2

/-- `compute_wheel_velocities_jacobian`: body-frame conversion followed
by the matrix–vector product with the Jacobian. -/
noncomputable def compute_wheel_velocities_jacobian
    (speed angle orientation omega : ℝ) (use_four_wheels : Bool) : List ℝ :=
  let vb := convert_to_body_frame speed angle orientation
  let v : ℝ × ℝ × ℝ := (vb.1, vb.2, omega)
  (construct_jacobian use_four_wheels).map (fun row => dot3 row v)

/-- The `MotionCommand` derived by `update` for one frame: the three
quantities computed at the top of the callback plus the session `ω`. -/
structure MotionCommand where
  speed : ℝ
  direction : ℝ
  orientation : ℝ
  omega : ℝ

/-- The derivation inside `update` when not paused:
`speed = 0.5 * (1 + np.sin(np.radians(frame)))`, `angle = frame % 360`,
`orientation = (omega * frame) % 360`. -/
noncomputable def deriveMotion (frame : ℕ) (omega : ℝ) : MotionCommand where
  speed := 0.5 * (1 + Real.sin (radians frame))
  direction := ((frame % 360 : ℕ) : ℝ)
  orientation := pyMod (omega * frame) 360
  omega := omega

/-- `update(frame, ax, omega, use_four_wheels)`: when paused the body is
skipped entirely (no derivation, no wheel-velocity computation, nothing
handed to the renderer); otherwise it derives the motion command and
computes the wheel velocities for the plot. -/
noncomputable def update (paused : Bool) (frame : ℕ) (omega : ℝ)
    (use_four_wheels : Bool) : Option (MotionCommand × List ℝ) :=
  if paused then none
  else
    let m := deriveMotion frame omega
    some (m, compute_wheel_velocities_jacobian m.speed m.direction
      m.orientation omega use_four_wheels)

/-- One animation tick as seen by the canvas: a non-paused `update`
replaces the rendered state, a paused one leaves it untouched. -/
noncomputable def tickRender (paused : Bool) (frame : ℕ) (omega : ℝ)
    (use_four_wheels : Bool) (last : Option (MotionCommand × List ℝ)) :
    Option (MotionCommand × List ℝ) :=
  match update paused frame omega use_four_wheels with
  | none => last
  | some out => some out

/-- A run of consecutive ticks with a fixed paused flag. -/
noncomputable def runTicks (paused : Bool) (frames : List ℕ) (omega : ℝ)
    (use_four_wheels : Bool) (last : Option (MotionCommand × List ℝ)) :
    Option (MotionCommand × List ℝ) :=
  frames.foldl (fun st f => tickRender paused f omega use_four_wheels st) last

/-- The frame index `run_animation`'s host delivers at tick `t`:
`FuncAnimation(..., frames=np.arange(0, 720, 1), ..., repeat=True)`
cycles through 0..719 and then restarts from 0. -/
def frameAt (t : ℕ) : ℕ := t % 720

/-- A key event as delivered to `toggle_pause`; `key` is `none` when the
backend reports no key for the event. -/
structure KeyEvent where
  key : Option String

/-- `toggle_pause(event)`: flips the global `paused` exactly when
`event.key == ' '`. -/
def toggle_pause (event : KeyEvent) (paused : Bool) : Bool :=
  if event.key = some " " then !paused else paused

/-- Python's `str.lower()` on a console answer: lowercase each
character (the answers are ASCII console strings). -/
def pyLower (s : String) : String :=
  ⟨s.data.map Char.toLower⟩

/-- The three console answers read by `get_user_inputs`. -/
structure SessionInputs where
  plotBothAns : String
  omegaAns : String
  fourWheelsAns : String

/-- The session configuration produced by `get_user_inputs`: the
`PLOT_BOTH` and `OMEGA` globals it assigns plus its return value. -/
structure SessionConfig where
  plotBoth : Bool
  omega : ℝ
  use_four_wheels : Bool

/-- `get_user_inputs()`.  `parseFloat` abstracts Python's `float()`
(`none` = `ValueError`); `omega0` is the current `OMEGA` global
(0 at module load).  An empty omega answer takes the `or OMEGA` branch;
a failed parse lands in the `except ValueError` handler, which keeps
`OMEGA` and resets `PLOT_BOTH` to `False`; the 4-wheel question is
answered `y`/anything-else afterwards. -/
def get_user_inputs (parseFloat : String → Option ℝ) (omega0 : ℝ)
    (inp : SessionInputs) : SessionConfig :=
  let plotBothTry := pyLower inp.plotBothAns == "y"
  let omegaParsed : Option ℝ :=
    if inp.omegaAns = "" then some omega0 else parseFloat inp.omegaAns
  match omegaParsed with
  | some x =>
      ⟨plotBothTry, x,
        if plotBothTry then false else pyLower inp.fourWheelsAns == "y"⟩
  | none =>
      ⟨false, omega0, pyLower inp.fourWheelsAns == "y"⟩

end JacobianSim

namespace JacobianSim

/-- Helper: a paused tick leaves the rendered state untouched. -/
lemma tickRender_paused (f : ℕ) (ω : ℝ) (ufw : Bool)
    (last : Option (MotionCommand × List ℝ)) :
    tickRender true f ω ufw last = last := by
  simp [tickRender, update]

/-- Helper: any number of paused ticks leaves the rendered state
untouched. -/
lemma runTicks_paused (frames : List ℕ) (ω : ℝ) (ufw : Bool)
    (last : Option (MotionCommand × List ℝ)) :
    runTicks true frames ω ufw last = last := by
  induction frames generalizing last with
  | nil => rfl
  | cons f fs ih =>
      simp only [runTicks, List.foldl_cons, tickRender_paused]
      exact ih last

/-- C1: `construct_jacobian` yields one row per angle, in order, and row
`i` is `[cos θ_i / r, sin θ_i / r, R / r]`. -/
theorem construct_jacobian_rows (angles : List ℝ) (r R : ℝ) :
    (construct_jacobian_gen angles r R).length = angles.length ∧
    ∀ i, i < angles.length →
      (construct_jacobian_gen angles r R)[i]! =
        (Real.cos angles[i]! / r, Real.sin angles[i]! / r, R / r) := by
  constructor
  · simp [construct_jacobian_gen]
  · intro i hi
    have hlen : i < (construct_jacobian_gen angles r R).length := by
      simpa [construct_jacobian_gen] using hi
    rw [getElem!_pos angles i hi,
      getElem!_pos (construct_jacobian_gen angles r R) i hlen]
    simp [construct_jacobian_gen, jacobianRow]

/-- Witness for C1: the 3-wheel configuration with the source's radii,
row 1 (the wheel at 180°). -/
theorem construct_jacobian_rows_witness :
    (construct_jacobian_gen WHEEL_ANGLES WHEEL_RADIUS ROBOT_RADIUS)[1]! =
      (Real.cos WHEEL_ANGLES[1]! / WHEEL_RADIUS,
       Real.sin WHEEL_ANGLES[1]! / WHEEL_RADIUS,
       ROBOT_RADIUS / WHEEL_RADIUS) :=
  (construct_jacobian_rows WHEEL_ANGLES WHEEL_RADIUS ROBOT_RADIUS).2 1
    (by simp [WHEEL_ANGLES])

/-- C2: `convert_to_body_frame` returns exactly
`(-s·sin Δ, s·cos Δ)` with `Δ = radians (d - o)`. -/
theorem convert_to_body_frame_eq (s d o : ℝ) :
    convert_to_body_frame s d o =
      (-(s * Real.sin (radians (d - o))), s * Real.cos (radians (d - o))) := by
  have h : radians d - radians o = radians (d - o) := by
    unfold radians; ring
  simp only [convert_to_body_frame, h]

/-- C9: the body-frame transform preserves the speed's magnitude:
`v_bx² + v_by² = s²`. -/
theorem convert_to_body_frame_norm (s d o : ℝ) :
    (convert_to_body_frame s d o).1 ^ 2 + (convert_to_body_frame s d o).2 ^ 2 =
      s ^ 2 := by
  have h := Real.sin_sq_add_cos_sq (radians d - radians o)
  simp only [convert_to_body_frame]
  ring_nf
  nlinarith [h]

/-- C3: a Running tick derives exactly
`speed = 0.5 * (1 + sin (radians n))`, `direction = n % 360`,
`orientation = (ω * n) % 360`, and the derived speed lies in `[0, 1]`. -/
theorem running_tick_derivation (n : ℕ) (ω : ℝ) (ufw : Bool) :
    update false n ω ufw =
      some (deriveMotion n ω,
        compute_wheel_velocities_jacobian (deriveMotion n ω).speed
          (deriveMotion n ω).direction (deriveMotion n ω).orientation ω ufw) ∧
    (deriveMotion n ω).speed = 0.5 * (1 + Real.sin (radians n)) ∧
    (deriveMotion n ω).direction = ((n % 360 : ℕ) : ℝ) ∧
    (deriveMotion n ω).orientation = pyMod (ω * n) 360 ∧
    0 ≤ (deriveMotion n ω).speed ∧ (deriveMotion n ω).speed ≤ 1 := by
  have h1 := Real.neg_one_le_sin (radians n)
  have h2 := Real.sin_le_one (radians n)
  refine ⟨rfl, rfl, rfl, rfl, ?_, ?_⟩
  · simp only [deriveMotion]
    nlinarith
  · simp only [deriveMotion]
    nlinarith

/-- C5: while paused, a tick produces no motion command and no wheel
velocities, and an arbitrary run of consecutive paused ticks leaves the
previously rendered state exactly as it was. -/
theorem paused_tick_noop (n : ℕ) (ω : ℝ) (ufw : Bool) (frames : List ℕ)
    (last : Option (MotionCommand × List ℝ)) :
    update true n ω ufw = none ∧ runTicks true frames ω ufw last = last :=
  ⟨by simp [update], runTicks_paused frames ω ufw last⟩

/-- C7 counterexample: the delivered frame index is the cyclic sequence
`np.arange(0, 720, 1)` with `repeat=True`, so at tick 720 it resets to 0
instead of increasing to 720: the counter is not strictly monotonically
increasing and does wrap. -/
theorem frame_counter_wraps :
    frameAt 719 = 719 ∧ frameAt 720 = 0 ∧
    frameAt 720 ≠ frameAt 719 + 1 ∧ frameAt 720 < frameAt 719 := by
  decide

/-- C7 (amended): the frame index starts at 0 and increments by exactly 1
per tick within each 720-frame cycle, but `repeat=True` resets it to 0
every 720 ticks; the wrap is invisible to the mod-360 projections of the
derived quantities (and to the sine driving the speed), since 720 is a
multiple of 360. -/
theorem frame_counter_cyclic :
    frameAt 0 = 0 ∧
    (∀ t : ℕ, t % 720 ≠ 719 → frameAt (t + 1) = frameAt t + 1) ∧
    (∀ t : ℕ, frameAt (t + 720) = frameAt t) ∧
    (∀ t : ℕ, frameAt t % 360 = t % 360) ∧
    (∀ t : ℕ, Real.sin (radians (frameAt t)) = Real.sin (radians t)) := by
  refine ⟨rfl, ?_, ?_, ?_, ?_⟩
  · intro t h
    simp only [frameAt]
    omega
  · intro t
    simp only [frameAt]
    omega
  · intro t
    simp only [frameAt]
    omega
  · intro t
    have hsplit : t = frameAt t + 720 * (t / 720) := by
      simp only [frameAt]
      omega
    have hrad : radians t =
        radians (frameAt t) + (2 * (t / 720) : ℕ) * (2 * Real.pi) := by
      conv_lhs => rw [hsplit]
      simp only [radians]
      push_cast
      ring
    rw [hrad, Real.sin_add_nat_mul_two_pi]

/-- Witness for C7 (amended): increment at tick 5, wrap-invisibility at
tick 720. -/
theorem frame_counter_cyclic_witness :
    frameAt (5 + 1) = frameAt 5 + 1 ∧ frameAt 720 % 360 = 720 % 360 :=
  ⟨frame_counter_cyclic.2.1 5 (by decide),
   frame_counter_cyclic.2.2.2.1 720⟩

/-- Helper: 0° in radians. -/
lemma radians_zero : radians 0 = 0 := by
  unfold radians; ring

/-- Helper: 90° in radians. -/
lemma radians_90 : radians 90 = Real.pi / 2 := by
  unfold radians; ring

/-- Helper: cos 60°. -/
lemma cos_radians_60 : Real.cos (radians 60) = 1 / 2 := by
  have h : radians 60 = Real.pi / 3 := by unfold radians; ring
  rw [h, Real.cos_pi_div_three]

/-- Helper: cos 180°. -/
lemma cos_radians_180 : Real.cos (radians 180) = -1 := by
  have h : radians 180 = Real.pi := by unfold radians; ring
  rw [h, Real.cos_pi]

/-- Helper: cos 300°. -/
lemma cos_radians_300 : Real.cos (radians 300) = 1 / 2 := by
  have h : radians 300 = -(Real.pi / 3) + 2 * Real.pi := by unfold radians; ring
  rw [h, Real.cos_add_two_pi, Real.cos_neg, Real.cos_pi_div_three]

/-- C6: the concrete scenario — 3-wheel configuration at frame 90 with
`ω = 0`: derived speed 1, direction 90°, orientation 0°; body-frame
velocity `(-1, 0)`; wheel velocities
`[cos 60° / 0.148 · (-1), cos 180° / 0.148 · (-1), cos 300° / 0.148 · (-1)]
 = [-125/37, 250/37, -125/37] ≈ [-3.378, 6.757, -3.378]`. -/
theorem scenario_frame90 :
    (deriveMotion 90 0).speed = 1 ∧
    (deriveMotion 90 0).direction = 90 ∧
    (deriveMotion 90 0).orientation = 0 ∧
    convert_to_body_frame 1 90 0 = (-1, 0) ∧
    update false 90 0 false =
      some (deriveMotion 90 0, compute_wheel_velocities_jacobian 1 90 0 0 false) ∧
    compute_wheel_velocities_jacobian 1 90 0 0 false =
      [Real.cos (radians 60) / 0.148 * (-1),
       Real.cos (radians 180) / 0.148 * (-1),
       Real.cos (radians 300) / 0.148 * (-1)] ∧
    compute_wheel_velocities_jacobian 1 90 0 0 false =
      [-(125 / 37), 250 / 37, -(125 / 37)] ∧
    |(-(125 / 37) : ℝ) + 3.378| < 0.001 ∧ |(250 / 37 : ℝ) - 6.757| < 0.001 := by
  have hcast : ((90 : ℕ) : ℝ) = 90 := by norm_num
  have hspeed : (deriveMotion 90 0).speed = 1 := by
    simp only [deriveMotion, hcast, radians_90, Real.sin_pi_div_two]
    norm_num
  have hdir : (deriveMotion 90 0).direction = 90 := by
    simp [deriveMotion]
  have hor : (deriveMotion 90 0).orientation = 0 := by
    simp [deriveMotion, pyMod]
  have hconv : convert_to_body_frame 1 90 0 = (-1, 0) := by
    simp only [convert_to_body_frame, radians_zero, sub_zero, radians_90,
      Real.sin_pi_div_two, Real.cos_pi_div_two]
    norm_num
  have hupd : update false 90 0 false =
      some (deriveMotion 90 0, compute_wheel_velocities_jacobian 1 90 0 0 false) := by
    have h0 : update false 90 0 false =
        some (deriveMotion 90 0,
          compute_wheel_velocities_jacobian (deriveMotion 90 0).speed
            (deriveMotion 90 0).direction (deriveMotion 90 0).orientation
            0 false) := rfl
    rw [h0, hspeed, hdir, hor]
  have hlist : compute_wheel_velocities_jacobian 1 90 0 0 false =
      [Real.cos (radians 60) / 0.148 * (-1),
       Real.cos (radians 180) / 0.148 * (-1),
       Real.cos (radians 300) / 0.148 * (-1)] := by
    simp only [compute_wheel_velocities_jacobian, hconv, construct_jacobian,
      construct_jacobian_gen, WHEEL_ANGLES, WHEEL_RADIUS, ROBOT_RADIUS,
      List.map_cons, List.map_nil, jacobianRow, dot3, Bool.false_eq_true,
      if_false]
    norm_num
  have hexact : compute_wheel_velocities_jacobian 1 90 0 0 false =
      [-(125 / 37), 250 / 37, -(125 / 37)] := by
    rw [hlist, cos_radians_60, cos_radians_180, cos_radians_300]
    norm_num
  refine ⟨hspeed, hdir, hor, hconv, hupd, hlist, hexact, ?_, ?_⟩
  · rw [abs_lt]; constructor <;> norm_num
  · rw [abs_lt]; constructor <;> norm_num

/-- C4 counterexample: the source performs no construction-time
validation — `construct_jacobian` still returns an N×3 matrix for a
wheel radius ≤ 0, and the empty angle list yields the empty matrix
rather than an error. -/
theorem invalid_config_still_builds :
    ((-1 : ℝ) ≤ 0 ∧
      (construct_jacobian_gen WHEEL_ANGLES (-1) ROBOT_RADIUS).length = 3) ∧
    construct_jacobian_gen [] WHEEL_RADIUS ROBOT_RADIUS = [] := by
  refine ⟨⟨by norm_num, ?_⟩, rfl⟩
  simp [construct_jacobian_gen, WHEEL_ANGLES]

/-- C4 (amended): the source defines no ConfigurationError and rejects
nothing at construction: `construct_jacobian` is total and returns one
row per angle for every radius, platform radius and angle sequence
(invalid radii cannot arise in the program, whose radii are fixed
positive module constants). -/
theorem construct_jacobian_total (angles : List ℝ) (r R : ℝ) :
    (construct_jacobian_gen angles r R).length = angles.length := by
  simp [construct_jacobian_gen]

/-- C8: if the omega answer is missing (empty) or fails numeric parsing,
and the 4-wheel answer is not `y` (missing/default), the session
configuration falls back to the documented defaults `omega = 0` and the
3-wheel configuration; `get_user_inputs` is total, so the session still
starts. -/
theorem omega_parse_fallback (parseFloat : String → Option ℝ)
    (inp : SessionInputs)
    (hbad : inp.omegaAns = "" ∨ parseFloat inp.omegaAns = none)
    (hfw : pyLower inp.fourWheelsAns ≠ "y") :
    (get_user_inputs parseFloat 0 inp).omega = 0 ∧
    (get_user_inputs parseFloat 0 inp).use_four_wheels = false := by
  have hfwb : (pyLower inp.fourWheelsAns == "y") = false := by
    simpa using hfw
  by_cases he : inp.omegaAns = ""
  · simp [get_user_inputs, he, hfwb]
  · have hnone : parseFloat inp.omegaAns = none := hbad.resolve_left he
    simp [get_user_inputs, if_neg he, hnone, hfwb]

/-- Witness for C8: a malformed omega answer with the other questions
answered `y` and blank. -/
theorem omega_parse_fallback_witness :
    (get_user_inputs (fun _ => none) 0 ⟨"y", "abc", "n"⟩).omega = 0 ∧
    (get_user_inputs (fun _ => none) 0 ⟨"y", "abc", "n"⟩).use_four_wheels
      = false :=
  omega_parse_fallback (fun _ => none) ⟨"y", "abc", "n"⟩ (Or.inr rfl)
    (by simp [pyLower])

/-- C10: `toggle_pause` is inert for every key other than the space
character and exactly negates the paused flag for the space key. -/
theorem toggle_pause_space_only :
    (∀ (e : KeyEvent) (p : Bool), e.key ≠ some " " → toggle_pause e p = p) ∧
    ∀ p : Bool, toggle_pause ⟨some " "⟩ p = !p := by
  constructor
  · intro e p h
    simp [toggle_pause, h]
  · intro p
    simp [toggle_pause]

/-- Witness for C10: the key `a` leaves the flag alone; space flips it. -/
theorem toggle_pause_space_only_witness :
    toggle_pause ⟨some "a"⟩ true = true ∧
    toggle_pause ⟨some " "⟩ false = !false :=
  ⟨toggle_pause_space_only.1 ⟨some "a"⟩ true (by decide),
   toggle_pause_space_only.2 false⟩
